import Mathlib

/-!
Shallow embedding of the RAG service (FastAPI + llama-index orchestration glue):
the search router's response shaping (`app/routers/search.py`), the ingestion
router's pipeline assembly and control flow (`app/routers/ingestion.py`), the
memoized index accessor (`app/core/models.py`), and the request validation
bounds (`app/schemas/requests.py`).

Python strings are modelled as Lean `String`; Python `str.strip`, `str.lower`
and truthiness are modelled explicitly (ASCII case folding, as all literals
compared against are ASCII). Module-level mutable globals are modelled as an
explicit `World` state threaded through the functions that touch them; handle
construction draws a fresh identifier from a counter so that reference
equality of handles is equality of identifiers. External collaborators
(document loader, ingestion pipeline run, vector store, query engine / LLM)
are modelled as functions supplied by an environment record; fallible Python
code is modelled with `Except`.
-/

namespace RagService

/-- Python `str.isspace` characters relevant to `str.strip()`:
space, tab, newline, carriage return, vertical tab, form feed. -/
def pyIsSpace (c : Char) : Bool :=
  c == ' ' || c == '\t' || c == '\n' || c == '\r' || c == '\x0b' || c == '\x0c'

/-- Python `str.lower()` (ASCII case folding; every literal the source
compares against is ASCII). -/
def pyLower (s : String) : String :=
  String.mk (s.toList.map Char.toLower)

/-- Python `str.strip()`: remove leading and trailing whitespace. -/
def pyStrip (s : String) : String :=
  String.mk ((((s.toList.dropWhile pyIsSpace).reverse.dropWhile pyIsSpace).reverse))

/-- Python truthiness-based fallback `x if x else dflt` where `x` is either
`None` or a string (`None` and `""` are falsy). -/
def pyTruthyOr (v : Option String) (dflt : String) : String :=
  match v with
  | none => dflt
  | some s => if s = "" then dflt else s

/-- The fixed fallback answer of `search.py` line 77. -/
def supportFallback : String :=
  "I couldn\x27t find relevant information to answer your question. Please contact customer support for further assistance."

/-- The answer guardrail of `search.py` lines 74-77:
`if not answer or answer.strip() == "" or answer.strip().lower() == "empty response"`
replaces the answer with the fixed support-contact fallback. -/
def shapeAnswer (answer : String) : String :=
  if answer = "" || pyStrip answer == "" || pyLower (pyStrip answer) == "empty response" then
    supportFallback
  else
    answer

/-- A retrieved source node as the shaping loop observes it:
its text, an optional metadata mapping (`none` models a node object without a
`metadata` attribute, i.e. `hasattr(node, "metadata")` false; the mapping
itself is a string-keyed dict), and an optional similarity score (`none`
models `hasattr(node, "score")` false; the score value itself is opaque to
the shaping code, modelled by an integer identifier). -/
structure SourceNode where
  text : String
  metadata : Option (List (String × String))
  score : Option Int
deriving Repr, DecidableEq

/-- Python `dict.get(key)`: the value, or `None` when the key is absent. -/
def dictGet (d : List (String × String)) (k : String) : Option String :=
  (d.find? (fun p => p.1 == k)).map (fun p => p.2)

/-- A single emitted search result (schema `SearchResult`): the shaping code
always supplies a string for `file_name` and `summary`, and passes the score
through unchanged (or `None`). -/
structure SearchResult where
  file_name : String
  summary : String
  score : Option Int
deriving Repr, DecidableEq

/-- A Python runtime error the shaping loop can raise: reading the local
variables `file_name` / `summary` before any assignment
(`UnboundLocalError`, a `NameError`). -/
inductive PyErr where
  | nameError
deriving Repr, DecidableEq

/-- Python `str.startswith(pre)`: the characters of `pre` are an initial
segment of the characters of `s`. -/
def pyStartswith (s pre : String) : Bool :=
  pre.toList.isPrefixOf s.toList

/-- The guard of `search.py` line 85:
`node.text.lower().strip().startswith("sub question:")`. -/
def isSubQuestionText (s : String) : Bool :=
  pyStartswith (pyStrip (pyLower s)) "sub question:"

/-- The loop body of `search.py` lines 84-97. The locals `file_name` and
`summary` are function-scoped in Python: they start unbound (`none` at the
outer layer) and keep their previous iteration's values when the
`hasattr(node, "metadata")` branch is not taken; reading them unbound raises
`UnboundLocalError`, which the router's `except` turns into a request
failure. -/
def shapeLoop : List SourceNode → Option (Option String) → Option (Option String) →
    List SearchResult → Except PyErr (List SearchResult)
  | [], _, _, results => .ok results
  | node :: rest, file_name, summary, results =>
    if isSubQuestionText node.text then
      shapeLoop rest file_name summary results
    else
      let vars : Option (Option String) × Option (Option String) :=
        match node.metadata with
        | some md => (some (dictGet md "file_name"), some (dictGet md "document_title"))
        | none => (file_name, summary)
      match vars.1 with
      | none => .error PyErr.nameError
      | some fn =>
        match vars.2 with
        | none => .error PyErr.nameError
        | some sm =>
          shapeLoop rest (some fn) (some sm)
            (results ++ [{ file_name := pyTruthyOr fn "Unknown",
                           summary := pyTruthyOr sm "No summary available",
                           score := node.score }])

/-- `search.py` lines 82-97: `results = []`, the
`hasattr(response, "source_nodes")` guard (`none` models its absence), then
the shaping loop with both locals unbound. -/
def extractResults (source_nodes : Option (List SourceNode)) :
    Except PyErr (List SearchResult) :=
  match source_nodes with
  | none => .ok []
  | some nodes => shapeLoop nodes none none []

/-- A memoized index handle (`VectorStoreIndex.from_vector_store(vector_store)`):
a fresh object identity plus the identity of the vector store it wraps.
Object identity (Python reference equality) is modelled by a `Nat` identifier
drawn from the world's allocation counter, so distinct constructions yield
distinct handles and returning a memoized handle returns an equal one. -/
structure IndexHandle where
  id : Nat
  storeId : Nat
deriving Repr, DecidableEq

/-- The module-level mutable state of `app/core/models.py`
(`_vector_store = None`, `_index = None`) plus an allocation counter for
fresh object identities. -/
structure World where
  nextId : Nat
  _vector_store : Option Nat
  _index : Option IndexHandle
deriving Repr, DecidableEq

/-- The process-start state: both globals are `None`. -/
def initialWorld : World :=
  { nextId := 0, _vector_store := none, _index := none }

/-- `models.py` `get_vector_store()`: return the memoized store handle, or
construct one (`DuckDBVectorStore.from_local(...)`, modelled as allocating a
fresh identity) and memoize it. -/
def get_vector_store (w : World) : Nat × World :=
  match w._vector_store with
  | some vs => (vs, w)
  | none =>
    let vs := w.nextId
    (vs, { w with nextId := w.nextId + 1, _vector_store := some vs })

/-- `models.py` `get_index()`: return the memoized index handle, or build one
from `get_vector_store()` (`VectorStoreIndex.from_vector_store`, modelled as
allocating a fresh identity wrapping the store) and memoize it. -/
def get_index (w : World) : IndexHandle × World :=
  match w._index with
  | some idx => (idx, w)
  | none =>
    let p := get_vector_store w
    let idx : IndexHandle := { id := p.2.nextId, storeId := p.1 }
    (idx, { p.2 with nextId := p.2.nextId + 1, _index := some idx })

/-- `models.py` `reset_models()`: clear both globals. -/
def reset_models (w : World) : World :=
  { w with _vector_store := none, _index := none }

/-- The `IngestionRequest` schema fields (`app/schemas/requests.py`).
Pydantic `int` fields are modelled as `Int`. -/
structure IngestionRequest where
  input_dir : String
  chunk_size : Int
  chunk_overlap : Int
  extract_title : Bool
  extract_qa : Bool
  extract_keywords : Bool
  extract_summary : Bool
deriving Repr, DecidableEq

/-- The pydantic validation of `IngestionRequest`: each field's declared
bounds (`chunk_size` `ge=100, le=2000`; `chunk_overlap` `ge=0, le=500`).
These per-field constraints are the only validation the schema declares. -/
def IngestionRequest.validates (r : IngestionRequest) : Bool :=
  100 ≤ r.chunk_size && r.chunk_size ≤ 2000 && 0 ≤ r.chunk_overlap && r.chunk_overlap ≤ 500

/-- The `SearchRequest` schema fields (`app/schemas/requests.py`). -/
structure SearchRequest where
  query : String
  similarity_top_k : Int
  use_sub_questions : Bool
deriving Repr, DecidableEq

/-- The pydantic validation of `SearchRequest`: `similarity_top_k`
`ge=1, le=50`. -/
def SearchRequest.validates (r : SearchRequest) : Bool :=
  1 ≤ r.similarity_top_k && r.similarity_top_k ≤ 50

/-- The closed set of transformation stages `ingestion.py` can place in the
pipeline, each carrying exactly the parameters the source passes. -/
inductive Transformation where
  | sentenceSplitter (chunk_size chunk_overlap : Int)
  | titleExtractor (nodes : Nat)
  | questionsAnsweredExtractor (questions : Nat)
  | keywordExtractor (keywords : Nat)
  | summaryExtractor (summaries : List String) (nodes : Nat) (num_workers : Nat)
deriving Repr, DecidableEq

/-- `ingestion.py` lines 63-84: the sequential construction of the
`transformations` list — the sentence splitter is appended first, then each
extractor is appended when its request flag is set, in the source's order. -/
def buildTransformations (request : IngestionRequest) : List Transformation :=
  let transformations : List Transformation := []
  let transformations := transformations ++
    [Transformation.sentenceSplitter request.chunk_size request.chunk_overlap]
  let transformations :=
    if request.extract_title then
      transformations ++ [Transformation.titleExtractor 5]
    else transformations
  let transformations :=
    if request.extract_qa then
      transformations ++ [Transformation.questionsAnsweredExtractor 3]
    else transformations
  let transformations :=
    if request.extract_keywords then
      transformations ++ [Transformation.keywordExtractor 15]
    else transformations
  let transformations :=
    if request.extract_summary then
      transformations ++ [Transformation.summaryExtractor ["prev", "self"] 5 5]
    else transformations
  transformations

/-- A loaded document (content plus file-level metadata, opaque to the
router's control flow). -/
structure Document where
  text : String
deriving Repr, DecidableEq

/-- A pipeline-produced node (opaque to the router's control flow). -/
structure PipelineNode where
  text : String
deriving Repr, DecidableEq

/-- The directory contents the loader sees: whether a directory exists, and
which documents loading it yields. -/
structure FileSystem where
  dirExists : String → Bool
  docsIn : String → List Document

/-- Modelled from the spec: the external `SimpleDirectoryReader` document
loader (not part of this repository) raises — rather than returning an empty
result — when the input directory does not exist or yields zero documents
("Fails with SourceNotFound if the directory does not exist or yields zero
documents"). -/
def simpleDirectoryReaderLoad (fs : FileSystem) (input_dir : String) :
    Except String (List Document) :=
  if fs.dirExists input_dir then
    match fs.docsIn input_dir with
    | [] => .error ("No files found in " ++ input_dir)
    | docs => .ok docs
  else
    .error ("Directory " ++ input_dir ++ " does not exist")

/-- The readers the document loader can apply to a file. -/
inductive FileReader where
  | pyMuPDFReader
  | defaultReader
deriving Repr, DecidableEq

/-- `ingestion.py` line 50: the `file_extractor` mapping the router passes to
the loader, keyed by the literal string `"*.pdf"`. -/
def file_extractor : List (String × FileReader) :=
  [("*.pdf", FileReader.pyMuPDFReader)]

/-- `pathlib`-style file suffix: the final `"." ++ extension` of a file name,
`""` when the name has no dot. -/
def fileSuffix (name : String) : String :=
  if (name.toList.dropWhile (fun c => c ≠ '.')).isEmpty then
    ""
  else
    "." ++ String.mk ((name.toList.reverse.takeWhile (fun c => c ≠ '.')).reverse)

/-- Modelled from the spec: the external document loader's suffix-based
dispatch contract (the loader is not part of this repository) — a file is
read with the extractor registered under its lowercased suffix (for a PDF
file, the key `".pdf"`); with no matching key, default text extraction is
used. -/
def selectReader (extractor : List (String × FileReader)) (fileName : String) :
    FileReader :=
  match (extractor.find? (fun p => p.1 == pyLower (fileSuffix fileName))).map
      (fun p => p.2) with
  | some r => r
  | none => FileReader.defaultReader

/-- The `IngestionResponse` schema fields the router's control flow
determines (wall-clock time and timestamp fields are not modelled). -/
structure IngestionResponse where
  success : Bool
  message : String
  documents_processed : Nat
  nodes_created : Nat
deriving Repr, DecidableEq

/-- The external collaborators of the ingestion route: the file system seen
by the document loader, the pipeline run (extractors call the LLM and may
fail), and the vector-store/index construction (may fail). -/
structure IngestEnv where
  fs : FileSystem
  pipelineRun : List Transformation → List Document → Except String (List PipelineNode)
  createIndex : List PipelineNode → Except String Unit

/-- `ingestion.py` `ingest_documents`: load documents, build the
transformation chain, run the pipeline, write the vector-store-backed index,
then `reset_models()`; any raised error is caught and surfaced as a request
failure with detail `"Ingestion failed: ..."`. The returned `World` is the
state of the `models.py` globals after the request: only the success path's
final `reset_models()` touches them. -/
def ingest_documents (env : IngestEnv) (request : IngestionRequest) (w : World) :
    Except String IngestionResponse × World :=
  match simpleDirectoryReaderLoad env.fs request.input_dir with
  | .error e => (.error ("Ingestion failed: " ++ e), w)
  | .ok documents =>
    let documents_count := documents.length
    let transformations := buildTransformations request
    match env.pipelineRun transformations documents with
    | .error e => (.error ("Ingestion failed: " ++ e), w)
    | .ok nodes =>
      let nodes_count := nodes.length
      match env.createIndex nodes with
      | .error e => (.error ("Ingestion failed: " ++ e), w)
      | .ok _ =>
        let w := reset_models w
        (.ok { success := true,
               message := "Documents ingested and indexed successfully",
               documents_processed := documents_count,
               nodes_created := nodes_count }, w)

/-- The framework's query response as the router observes it: its string
rendering (`str(response)`) and, when present, its `source_nodes` attribute. -/
structure QueryResponse where
  answerText : String
  source_nodes : Option (List SourceNode)

/-- The external collaborator of the search route: executing the query
through the engine built for the request (the simple engine, or the
sub-question engine when `use_sub_questions` is set — both are constructed
from the index handle without touching the `models.py` globals, so the
engine choice is folded into the environment's query function). -/
structure SearchEnv where
  query : IndexHandle → SearchRequest → Except String QueryResponse

/-- The `SearchResponse` schema fields the router's control flow determines
(wall-clock time and timestamp fields are not modelled). -/
structure SearchResponse where
  query : String
  answer : String
  results : List SearchResult
deriving Repr, DecidableEq

/-- The message of the Python error the shaping loop can raise. -/
def pyErrMessage : PyErr → String
  | PyErr.nameError => "cannot access local variable where it is not associated with a value"

/-- `search.py` `search`: obtain the (memoized) index via `get_index()`,
execute the query, apply the answer guardrail, shape the source nodes; any
raised error (including the shaping loop's `UnboundLocalError`) is caught
and surfaced as a request failure with detail `"Search failed: ..."`. The
returned `World` is the state of the `models.py` globals after the request:
`get_index()` is the only code in the route that touches them. -/
def search (env : SearchEnv) (request : SearchRequest) (w : World) :
    Except String SearchResponse × World :=
  let p := get_index w
  let index := p.1
  let w1 := p.2
  match env.query index request with
  | .error e => (.error ("Search failed: " ++ e), w1)
  | .ok response =>
    let answer := shapeAnswer response.answerText
    match extractResults response.source_nodes with
    | .error e => (.error ("Search failed: " ++ pyErrMessage e), w1)
    | .ok results =>
      (.ok { query := request.query, answer := answer, results := results }, w1)

/-- The schema's default ingestion request (`requests.py` defaults:
`./policies`, 512/128, all extractors on). -/
def defaultIngestionRequest : IngestionRequest :=
  { input_dir := "./policies", chunk_size := 512, chunk_overlap := 128,
    extract_title := true, extract_qa := true, extract_keywords := true,
    extract_summary := true }

/-- An ingestion request with `chunk_overlap = chunk_size = 100`: every field
is inside its declared pydantic bounds while the overlap is not smaller than
the chunk size. -/
def overlapEqSizeRequest : IngestionRequest :=
  { input_dir := "./policies", chunk_size := 100, chunk_overlap := 100,
    extract_title := true, extract_qa := true, extract_keywords := true,
    extract_summary := true }

/-- An environment whose input directory does not exist. -/
def missingDirEnv : IngestEnv :=
  { fs := { dirExists := fun _ => false, docsIn := fun _ => [] },
    pipelineRun := fun _ _ => .ok [],
    createIndex := fun _ => .ok () }

/-- An environment in which loading, the pipeline run and index construction
all succeed on one document. -/
def healthyIngestEnv : IngestEnv :=
  { fs := { dirExists := fun _ => true,
            docsIn := fun _ => [{ text := "policy text" }] },
    pipelineRun := fun _ docs => .ok (docs.map (fun d => { text := d.text })),
    createIndex := fun _ => .ok () }

/-- A search environment whose query succeeds with a response carrying no
`source_nodes` attribute. -/
def plainSearchEnv : SearchEnv :=
  { query := fun _ _ => .ok { answerText := "An answer.", source_nodes := none } }

/-- A world in which both `models.py` globals are populated. -/
def populatedWorld : World :=
  { nextId := 2, _vector_store := some 0, _index := some { id := 1, storeId := 0 } }

/-! ## Helper lemmas -/

instance {e a : Type} [DecidableEq e] [DecidableEq a] : DecidableEq (Except e a) := fun x y =>
  match x, y with
  | .ok u, .ok v => decidable_of_iff (u = v) (by simp)
  | .error u, .error v => decidable_of_iff (u = v) (by simp)
  | .ok _, .error _ => isFalse (by simp)
  | .error _, .ok _ => isFalse (by simp)

/-- `str.strip()` returns the empty string exactly when every character of
the string is whitespace (vacuously, also when the string is empty). -/
lemma pyStrip_eq_empty_iff (s : String) :
    pyStrip s = "" ↔ ∀ c ∈ s.toList, pyIsSpace c = true := by
  have hmk : ∀ l : List Char, String.mk l = "" ↔ l = [] := by
    intro l
    constructor
    · intro h
      exact congrArg String.data h
    · intro h
      rw [h]
  unfold pyStrip
  rw [hmk, List.reverse_eq_nil_iff, List.dropWhile_eq_nil_iff]
  constructor
  · intro h c hc
    have hsplit := List.takeWhile_append_dropWhile (p := pyIsSpace) (l := s.toList)
    rw [← hsplit] at hc
    rcases List.mem_append.mp hc with hc | hc
    · exact List.mem_takeWhile_imp hc
    · exact h c (List.mem_reverse.mpr hc)
  · intro h c hc
    have hc' : c ∈ s.toList.dropWhile pyIsSpace := List.mem_reverse.mp hc
    exact h c ((List.dropWhile_sublist pyIsSpace).mem hc')

/-- Nodes whose text starts (case-insensitively, after stripping) with
"sub question:" contribute nothing to the shaping loop: neither a result
entry, nor an update of the loop's locals, nor an error. -/
lemma shapeLoop_filter_sub_question (nodes : List SourceNode) :
    ∀ (fv sv : Option (Option String)) (acc : List SearchResult),
      shapeLoop nodes fv sv acc =
        shapeLoop (nodes.filter (fun n => !(isSubQuestionText n.text))) fv sv acc := by
  induction nodes with
  | nil =>
    intro fv sv acc
    rfl
  | cons node rest ih =>
    intro fv sv acc
    by_cases hq : isSubQuestionText node.text = true
    · rw [List.filter_cons_of_neg (by simp [hq])]
      rw [shapeLoop, if_pos hq]
      exact ih fv sv acc
    · have hq' : isSubQuestionText node.text = false := Bool.eq_false_iff.mpr hq
      rw [List.filter_cons_of_pos (by simp [hq'])]
      rw [shapeLoop, shapeLoop, if_neg hq, if_neg hq]
      cases hm : node.metadata with
      | some md =>
        simp only
        exact ih _ _ _
      | none =>
        simp only
        cases fv with
        | none => rfl
        | some fn =>
          cases sv with
          | none => rfl
          | some sm => exact ih _ _ _

/-- `get_index` on a world whose `_index` global is populated returns the
memoized handle and leaves the world untouched. -/
lemma get_index_of_memoized (w : World) (h : IndexHandle)
    (hm : w._index = some h) : get_index w = (h, w) := by
  unfold get_index
  rw [hm]

/-- After any `get_index` call, the `_index` global holds exactly the handle
that call returned. -/
lemma get_index_memoizes (w : World) :
    (get_index w).2._index = some (get_index w).1 := by
  unfold get_index get_vector_store
  cases h : w._index with
  | some idx => simp [h]
  | none =>
    cases hv : w._vector_store with
    | some vs => simp [h, hv]
    | none => simp [h, hv]

/-! ## Claim theorems -/

/-- C1: whenever the raw answer is empty, whitespace-only, or — after
stripping — case-insensitively equal to the literal "empty response", the
answer guardrail substitutes the fixed customer-support fallback string
verbatim, and for every other raw answer it returns the raw answer
unchanged; in particular `""`, `" "`, `"Empty Response"` and
`"EMPTY RESPONSE"` all map to the fallback. -/
theorem shapeAnswer_guardrail :
    (∀ answer : String,
      shapeAnswer answer =
        if (∀ c ∈ answer.toList, pyIsSpace c = true)
            ∨ pyLower (pyStrip answer) = "empty response" then
          supportFallback
        else
          answer)
    ∧ shapeAnswer "" = supportFallback
    ∧ shapeAnswer " " = supportFallback
    ∧ shapeAnswer "Empty Response" = supportFallback
    ∧ shapeAnswer "EMPTY RESPONSE" = supportFallback := by
  refine ⟨?_, by decide, by decide, by decide, by decide⟩
  intro answer
  by_cases hcond : (∀ c ∈ answer.toList, pyIsSpace c = true)
      ∨ pyLower (pyStrip answer) = "empty response"
  · rw [if_pos hcond]
    rcases hcond with hall | heq
    · have h2 : pyStrip answer = "" := (pyStrip_eq_empty_iff answer).mpr hall
      simp [shapeAnswer, h2]
    · simp [shapeAnswer, heq]
  · rw [if_neg hcond]
    have hA : ¬ ∀ c ∈ answer.toList, pyIsSpace c = true :=
      fun h => hcond (Or.inl h)
    have hB : pyLower (pyStrip answer) ≠ "empty response" :=
      fun h => hcond (Or.inr h)
    have h2 : pyStrip answer ≠ "" :=
      fun h => hA ((pyStrip_eq_empty_iff answer).mp h)
    have h0 : answer ≠ "" := by
      intro h
      apply hA
      rw [h]
      intro c hc
      simp at hc
    simp [shapeAnswer, h0, h2, hB]

/-- C2: the shaped results of a search response are computed exactly as if
every source node whose text — lowercased and stripped — starts with
"sub question:" had been removed from the node list first: such nodes
contribute no result entry (and no state change and no error) to the
response, for every node list, so no emitted entry is built from one of
them; concretely, a response consisting only of such a node yields an empty
results list. -/
theorem search_results_filter_sub_questions :
    (∀ nodes : List SourceNode,
      extractResults (some nodes) =
        extractResults (some (nodes.filter (fun n => !(isSubQuestionText n.text)))))
    ∧ extractResults (some
        [{ text := "Sub question: What is the baggage policy?",
           metadata := some [("file_name", "policy.pdf")],
           score := some 7 }]) = .ok [] := by
  constructor
  · intro nodes
    exact shapeLoop_filter_sub_question nodes none none []
  · decide

/-- C3: evaluation of the shaping loop at nodes lacking a `metadata`
mapping. A first retained node with no metadata mapping makes the loop read
the local `file_name` before any assignment, raising `UnboundLocalError`
(so the request fails instead of emitting a result with `file_name`
`"Unknown"` and `summary` `"No summary available"`); and a later retained
node with no metadata mapping silently reuses the previous node's
`file_name` and `summary` instead of the fallback literals. -/
theorem shape_missing_metadata_divergence :
    extractResults (some [{ text := "Refund rules for checked baggage.",
                            metadata := none,
                            score := some 3 }]) = .error PyErr.nameError
    ∧ extractResults (some
        [{ text := "First chunk.",
           metadata := some [("file_name", "a.pdf"), ("document_title", "Title A")],
           score := some 9 },
         { text := "Second chunk.",
           metadata := none,
           score := some 8 }]) =
      .ok [{ file_name := "a.pdf", summary := "Title A", score := some 9 },
           { file_name := "a.pdf", summary := "Title A", score := some 8 }] := by
  constructor
  · decide
  · decide

/-- C4 counterexample: the request with `chunk_size = 100` and
`chunk_overlap = 100` has `chunk_overlap ≥ chunk_size`, yet it passes the
schema's request validation — it is not rejected before pipeline
construction or document loading. -/
theorem ingestion_validation_accepts_overlap_eq_size :
    overlapEqSizeRequest.chunk_size ≤ overlapEqSizeRequest.chunk_overlap
    ∧ IngestionRequest.validates overlapEqSizeRequest = true := by
  constructor
  · decide
  · decide

/-- C4 amended: ingestion request validation enforces exactly the per-field
bounds `100 ≤ chunk_size ≤ 2000` and `0 ≤ chunk_overlap ≤ 500`; no
relational check between the two fields exists, so a request with
`chunk_overlap ≥ chunk_size` is accepted whenever both per-field bounds
hold (concretely, the 100/100 request is accepted and its ingest run
proceeds to document loading: with an existing, non-empty source directory
it returns success). -/
theorem ingestion_validation_bounds_only :
    (∀ r : IngestionRequest,
      IngestionRequest.validates r = true ↔
        (100 ≤ r.chunk_size ∧ r.chunk_size ≤ 2000
          ∧ 0 ≤ r.chunk_overlap ∧ r.chunk_overlap ≤ 500))
    ∧ IngestionRequest.validates overlapEqSizeRequest = true
    ∧ (ingest_documents healthyIngestEnv overlapEqSizeRequest initialWorld).1 =
        .ok { success := true,
              message := "Documents ingested and indexed successfully",
              documents_processed := 1,
              nodes_created := 1 } := by
  refine ⟨?_, by decide, by decide⟩
  intro r
  simp [IngestionRequest.validates, and_assoc]

/-- C5: the transformation chain `ingest_documents` builds is exactly the
sentence splitter (with the request's `chunk_size` and `chunk_overlap`)
first, followed — each present exactly when its flag is set, in this fixed
order — by title extraction over 5 nodes, question generation with 3
questions per node, keyword extraction with 15 keywords per node, and
summary extraction of prev+self summaries over 5 nodes; no other stage ever
appears and the order never depends on the flag values. -/
theorem buildTransformations_chain :
    ∀ request : IngestionRequest,
      buildTransformations request =
        [Transformation.sentenceSplitter request.chunk_size request.chunk_overlap]
        ++ (if request.extract_title then [Transformation.titleExtractor 5] else [])
        ++ (if request.extract_qa then [Transformation.questionsAnsweredExtractor 3] else [])
        ++ (if request.extract_keywords then [Transformation.keywordExtractor 15] else [])
        ++ (if request.extract_summary then
              [Transformation.summaryExtractor ["prev", "self"] 5 5]
            else []) := by
  intro request
  obtain ⟨d, cs, co, t, qa, kw, sm⟩ := request
  cases t <;> cases qa <;> cases kw <;> cases sm <;> rfl

/-- C6: when the input directory does not exist, or loading it yields zero
documents, `ingest_documents` returns a request failure whose detail wraps
the loader's error — never a success response — and leaves the `models.py`
globals untouched. -/
theorem ingest_fails_on_missing_or_empty_source :
    ∀ (env : IngestEnv) (request : IngestionRequest) (w : World),
      (env.fs.dirExists request.input_dir = false ∨ env.fs.docsIn request.input_dir = []) →
      ∃ e, ingest_documents env request w = (.error ("Ingestion failed: " ++ e), w) := by
  intro env request w h
  unfold ingest_documents simpleDirectoryReaderLoad
  rcases h with h | h
  · rw [h]
    exact ⟨_, rfl⟩
  · cases hd : env.fs.dirExists request.input_dir
    · exact ⟨_, rfl⟩
    · rw [h]
      exact ⟨_, rfl⟩

/-- C6 witness: with a file system in which no directory exists, the default
ingestion request fails with an "Ingestion failed: ..." error and an
unchanged world. -/
theorem ingest_fails_on_missing_or_empty_source_witness :
    ∃ e, ingest_documents missingDirEnv defaultIngestionRequest initialWorld =
      (.error ("Ingestion failed: " ++ e), initialWorld) :=
  ingest_fails_on_missing_or_empty_source missingDirEnv defaultIngestionRequest
    initialWorld (Or.inl rfl)

/-- C7: calling `get_index` twice with no intervening `reset_models` returns
the same handle and the same world: the second call performs no construction
(it does not even advance the allocation counter) and yields exactly the
handle memoized by the first call. -/
theorem get_index_idempotent :
    ∀ w : World,
      (get_index (get_index w).2).1 = (get_index w).1
      ∧ (get_index (get_index w).2).2 = (get_index w).2 := by
  intro w
  have h := get_index_of_memoized (get_index w).2 (get_index w).1 (get_index_memoizes w)
  rw [h]
  exact ⟨rfl, rfl⟩

/-- C8: whenever `ingest_documents` returns a success response, the returned
world has both `models.py` globals cleared (`_vector_store` and `_index` are
`None`), so the next `get_index` call constructs a fresh handle, and the
response's success flag is set. -/
theorem ingest_success_resets_models :
    ∀ (env : IngestEnv) (request : IngestionRequest) (w : World)
      (resp : IngestionResponse) (w' : World),
      ingest_documents env request w = (.ok resp, w') →
      w'._vector_store = none ∧ w'._index = none ∧ resp.success = true := by
  intro env request w resp w' h
  unfold ingest_documents at h
  split at h
  · simp at h
  · dsimp only at h
    split at h
    · simp at h
    · split at h
      · simp at h
      · simp only [Prod.mk.injEq] at h
        obtain ⟨hresp, hw⟩ := h
        have hresp' := Except.ok.inj hresp
        rw [← hw, ← hresp']
        exact ⟨rfl, rfl, rfl⟩

/-- C8 witness: a successful ingest over a populated world clears both
globals and reports success. -/
theorem ingest_success_resets_models_witness :
    ((reset_models populatedWorld)._vector_store = none
      ∧ (reset_models populatedWorld)._index = none)
    ∧ ({ success := true,
         message := "Documents ingested and indexed successfully",
         documents_processed := 1,
         nodes_created := 1 } : IngestionResponse).success = true := by
  have h := ingest_success_resets_models healthyIngestEnv defaultIngestionRequest
    populatedWorld
    { success := true,
      message := "Documents ingested and indexed successfully",
      documents_processed := 1,
      nodes_created := 1 }
    (reset_models populatedWorld)
    (by decide)
  exact ⟨⟨h.1, h.2.1⟩, h.2.2⟩

/-- C9: evaluation of the document loader's suffix-based dispatch against the
`file_extractor` mapping the ingestion router registers. A PDF file's
lowercased suffix is `".pdf"`, which does not match the registered key
`"*.pdf"`, so the specialized `PyMuPDFReader` is never selected and PDF
files fall through to default extraction; registering the same reader under
the key `".pdf"` would select it. -/
theorem pdf_reader_never_selected :
    fileSuffix "policy.pdf" = ".pdf"
    ∧ selectReader file_extractor "policy.pdf" = FileReader.defaultReader
    ∧ selectReader [(".pdf", FileReader.pyMuPDFReader)] "policy.pdf" =
        FileReader.pyMuPDFReader := by
  refine ⟨by decide, by decide, by decide⟩

/-- C10: a search request never clears or replaces an initialized memoized
index handle: the world after `search` — whether the request succeeds or
fails — is exactly the world after the `get_index` call, and when `_index`
was already populated before the request the world is returned completely
unchanged. -/
theorem search_preserves_index_memo :
    ∀ (env : SearchEnv) (request : SearchRequest) (w : World),
      (search env request w).2 = (get_index w).2
      ∧ (w._index.isSome = true → (search env request w).2 = w) := by
  intro env request w
  have h1 : (search env request w).2 = (get_index w).2 := by
    unfold search
    cases hq : env.query (get_index w).1 request with
    | error e => simp [hq]
    | ok response =>
      cases hr : extractResults response.source_nodes with
      | error e => simp [hq, hr]
      | ok results => simp [hq, hr]
  refine ⟨h1, ?_⟩
  intro hs
  rw [h1]
  obtain ⟨h, hm⟩ := Option.isSome_iff_exists.mp hs
  rw [get_index_of_memoized w h hm]

/-- C10 witness: a search against a world with a populated `_index` returns
that world unchanged. -/
theorem search_preserves_index_memo_witness :
    (search plainSearchEnv { query := "q", similarity_top_k := 10,
                             use_sub_questions := false } populatedWorld).2 =
      populatedWorld :=
  (search_preserves_index_memo plainSearchEnv
    { query := "q", similarity_top_k := 10, use_sub_questions := false }
    populatedWorld).2 (by decide)

end RagService
